import Mathlib

/-!
Verification of the bootspec-secureboot installer against its specification.

This file gives a shallow embedding, in Lean 4, of the installer's planning
and reconciliation core (the `installer` crate): the generation catalog
helpers in `src/installer/src/util.rs`, the systemd-boot specific logic in
`src/installer/src/systemd_boot/mod.rs` and `plan.rs`, the version probes in
`src/installer/src/systemd_boot/version/`, the file identification data in
`src/installer/src/files.rs` and the Secure Boot signing data in
`src/installer/src/secure_boot.rs`.

Pure Rust functions become Lean functions.  Functions that perform I/O are
embedded as functions over an explicit, oracle-style world (file contents,
existence checks and external command exit statuses become inputs; the
filesystem operations and external command invocations they perform become an
explicit trace in the result).  Rust `usize` values are modelled as `Nat`
(overflow is modelled explicitly where the code's behaviour depends on it,
namely in `str::parse::<usize>`).  Rust `Result` values become `Except` when
the function has a real error path; a `Result` that is always `Ok` in the
source is modelled by the plain value.
-/

set_option autoImplicit false

/-! ### Data model

Mirrors `util.rs` (`Generation`), `secure_boot.rs` (`SigningInfo`),
`files.rs` (`FileToReplace`, `IdentifiedFiles`) and `cli.rs` (`Args`).
Paths and `OsString` values are modelled as `String`.
-/

/-- Mirrors `Generation` in `src/installer/src/util.rs` (lines 20-26). -/
structure Generation where
  idx : Nat
  profile : Option String
  path : String
  required_filenames : List String
deriving DecidableEq, Repr

/-- Mirrors `SigningInfo` in `src/installer/src/secure_boot.rs`. -/
structure SigningInfo where
  signing_key : String
  signing_cert : String
  sbsign : String
  sbverify : String
deriving DecidableEq, Repr

/-- Mirrors `FileToReplace` in `src/installer/src/files.rs`. -/
structure FileToReplace where
  generated_loc : String
  esp_loc : String
deriving DecidableEq, Repr

/-- Mirrors `IdentifiedFiles` in `src/installer/src/files.rs`. -/
structure IdentifiedFiles where
  to_sign : List String
  to_replace : List FileToReplace
deriving DecidableEq, Repr

/-- Mirrors the installer's `Args` (`src/installer/src/cli.rs`); the
`signing_info` field is the `Option SigningInfo` wrapped by
`OptionalSigningInfo`. -/
structure Args where
  toplevel : String
  dry_run : Bool
  generated_entries : String
  timeout : Option Nat
  console_mode : String
  configuration_limit : Option Nat
  editor : Bool
  verbosity : Nat
  install : Bool
  esp : List String
  can_touch_efi_vars : Bool
  bootctl : Option String
  unified_efi : Bool
  signing_info : Option SigningInfo
deriving DecidableEq, Repr

/-- Rust `Path::join` with a relative right operand, modelled on path
strings. -/
def pathJoin (a b : String) : String := a ++ ("/") ++ b

/-! ### Generation limiting (`util.rs::wanted_generations`, lines 28-49) -/

/-- Mirrors `wanted_generations` in `src/installer/src/util.rs` (lines 28-49):
with a limit, `skip(len.saturating_sub(limit))` over the generation list
(`Nat` subtraction is saturating, matching `usize::saturating_sub`); without
a limit the list is returned unchanged. -/
def wanted_generations (generations : List Generation)
    (configuration_limit : Option Nat) : List Generation :=
  match configuration_limit with
  | some limit => generations.drop (generations.length - limit)
  | none => generations

/-! ### Loader configuration rendering (`mod.rs::create_loader_conf`,
lines 171-193).  The Rust function returns `Result<String>` but `writeln!`
into a `String` is infallible, so it is modelled as a plain `String`. -/

/-- Mirrors `create_loader_conf` in `src/installer/src/systemd_boot/mod.rs`
(lines 171-193).  Each `writeln!` appends its formatted text plus a newline. -/
def create_loader_conf (timeout : Option Nat) (idx : Nat) (editor : Bool)
    (console_mode : String) : String :=
  let s : String := ("")
  let s := match timeout with
    | some t => s ++ ("timeout ") ++ toString t ++ ("\n")
    | none => s
  let s := s ++ ("default nixos-generation-") ++ toString idx ++ (".conf") ++ ("\n")
  let s := if !editor then s ++ ("editor 0") ++ ("\n") else s
  s ++ ("console-mode ") ++ console_mode ++ ("\n")

/-! ### Version comparison (`mod.rs::bootloader_is_old`, lines 195-206).
The Rust function returns `Result<bool>` but never errors, so it is
modelled as `Bool`. -/

/-- Mirrors `bootloader_is_old` in `src/installer/src/systemd_boot/mod.rs`
(lines 195-206): with an installed version, the bootloader is old iff the
systemd (tool) version is strictly greater; with none detected it only warns
and reports `false`. -/
def bootloader_is_old (bootloader_version : Option Nat)
    (systemd_version : Nat) : Bool :=
  match bootloader_version with
  | some v => systemd_version > v
  | none => false

/-! ### Helper lemmas -/

theorem drop_length_sub_eq_reverse_take {α : Type} (l : List α) (n : Nat) :
    l.drop (l.length - n) = (l.reverse.take n).reverse := by
  rw [List.reverse_take]
  simp

/-- Claim C8: `wanted_generations` with `Some n` returns exactly the last `n`
entries of the generation list in their original relative order (stated as:
the reversal of the first `n` entries of the reversed list, whose length is
`min n (length gens)`), and with `None` it returns the list unchanged. -/
theorem wanted_generations_spec (gens : List Generation) (n : Nat) :
    wanted_generations gens none = gens ∧
    wanted_generations gens (some n) = (gens.reverse.take n).reverse ∧
    (wanted_generations gens (some n)).length = min n gens.length := by
  refine ⟨rfl, drop_length_sub_eq_reverse_take gens n, ?_⟩
  simp [wanted_generations]
  omega

theorem str_empty_append (s : String) : ("") ++ s = s := by
  apply String.ext
  rw [String.data_append]
  simp [String.data]

theorem str_append_assoc (a b c : String) : a ++ b ++ c = a ++ (b ++ c) := by
  apply String.ext
  simp [String.data_append]

/-- Claim C9: loader-config rendering is exact.  The concrete input from the
spec renders to exactly the expected text; for every input, disabling the
editor inserts an `editor 0` line immediately before the `console-mode` line
(the text before that line is unchanged); with no timeout the text starts
directly with the `default` line (so a timeout line appears only when a
timeout is given); and the `console-mode` line is always the final line. -/
theorem create_loader_conf_spec :
    create_loader_conf (some 1) 125 true ("max") =
      ("timeout 1\ndefault nixos-generation-125.conf\nconsole-mode max\n") ∧
    (∀ t i c, ∃ A,
      create_loader_conf t i true c = A ++ ("console-mode ") ++ c ++ ("\n") ∧
      create_loader_conf t i false c
        = A ++ ("editor 0") ++ ("\n") ++ ("console-mode ") ++ c ++ ("\n")) ∧
    (∀ i e c, ∃ B,
      create_loader_conf none i e c
        = ("default nixos-generation-") ++ toString i ++ (".conf") ++ ("\n") ++ B) ∧
    (∀ t i e c, ∃ A,
      create_loader_conf t i e c = A ++ (("console-mode ") ++ c ++ ("\n"))) := by
  refine ⟨by rfl, ?_, ?_, ?_⟩
  · intro t i c
    refine ⟨(match t with
      | some v => ("") ++ ("timeout ") ++ toString v ++ ("\n")
      | none => ("")) ++ ("default nixos-generation-") ++ toString i ++ (".conf") ++ ("\n"),
      ?_, ?_⟩ <;>
      cases t <;> (apply String.ext; simp [create_loader_conf, String.data_append])
  · intro i e c
    refine ⟨(if !e then ("editor 0") ++ ("\n") else ("")) ++ ("console-mode ") ++ c ++ ("\n"), ?_⟩
    cases e <;> (apply String.ext; simp [create_loader_conf, String.data_append])
  · intro t i e c
    refine ⟨(match t with
      | some v => ("") ++ ("timeout ") ++ toString v ++ ("\n")
      | none => ("")) ++ ("default nixos-generation-") ++ toString i ++ (".conf") ++ ("\n")
      ++ (if !e then ("editor 0") ++ ("\n") else ("")), ?_⟩
    cases t <;> cases e <;> (apply String.ext; simp [create_loader_conf, String.data_append])

/-! ### The reconciliation plan (`plan.rs`)

`SystemdBootPlanState` mirrors the enum in
`src/installer/src/systemd_boot/plan.rs` (lines 19-60); borrowed `&Path` /
`&str` payloads become `String`, the borrowed slices become lists.
-/

/-- Mirrors `SystemdBootPlanState` in `src/installer/src/systemd_boot/plan.rs`. -/
inductive SystemdBootPlanState where
  | Start : SystemdBootPlanState
  | Install (loader : Option String) (bootctl : String) (esp : String)
      (can_touch_efi_vars : Bool) : SystemdBootPlanState
  | Update (bootctl : String) (esp : String) : SystemdBootPlanState
  | PruneFiles (wanted_generations : List Generation) (paths : List String) :
      SystemdBootPlanState
  | WriteLoader (path : String) (timeout : Option Nat) (index : Nat)
      (editor : Bool) (console_mode : String) : SystemdBootPlanState
  | ReplaceFiles (signing_info : Option SigningInfo)
      (to_replace : List FileToReplace) : SystemdBootPlanState
  | SignFiles (signing_info : SigningInfo) (to_sign : List String) :
      SystemdBootPlanState
  | CopyToEsp (generated_entries : String) (esp : String) : SystemdBootPlanState
  | Syncfs (esp : String) : SystemdBootPlanState
  | End : SystemdBootPlanState
deriving DecidableEq, Repr

/-- Mirrors `PlanArgs` in `src/installer/src/systemd_boot/plan.rs` (lines 64-71). -/
structure PlanArgs where
  args : Args
  bootctl : String
  esp : String
  wanted_generations : List Generation
  default_generation : Generation
  identified_files : IdentifiedFiles
deriving DecidableEq, Repr

/-- Mirrors `create_plan` in `src/installer/src/systemd_boot/plan.rs`
(lines 73-139).  The one I/O action in the source,
`esp.join("loader/loader.conf").exists()`, is modelled by the oracle
`fsExists`; the source's `Result` wrapper is the unconditional final
`Ok(plan)` and is therefore dropped.  Each list below appended to the
accumulated plan corresponds, in order, to one `plan.push(...)` in the
source. -/
def create_plan (fsExists : String → Bool) (plan_args : PlanArgs) :
    List SystemdBootPlanState :=
  let args := plan_args.args
  let bootctl := plan_args.bootctl
  let esp := plan_args.esp
  let identified_files := plan_args.identified_files
  [SystemdBootPlanState.Start]
  ++ (if args.install then
      let loader := pathJoin esp ("loader/loader.conf")
      [SystemdBootPlanState.Install
        (if fsExists loader then some loader else none)
        bootctl esp args.can_touch_efi_vars]
    else
      [SystemdBootPlanState.Update bootctl esp])
  ++ (match args.signing_info with
    | some signing_info =>
      let to_sign := [pathJoin esp ("EFI/systemd/systemd-bootx64.efi"),
        pathJoin esp ("EFI/BOOT/BOOTX64.EFI")] ++ identified_files.to_sign
      [SystemdBootPlanState.SignFiles signing_info to_sign]
    | none => [])
  ++ [SystemdBootPlanState.PruneFiles plan_args.wanted_generations
        [args.generated_entries, esp]]
  ++ [SystemdBootPlanState.ReplaceFiles args.signing_info identified_files.to_replace]
  ++ [SystemdBootPlanState.WriteLoader (pathJoin args.generated_entries ("loader/loader.conf"))
        args.timeout plan_args.default_generation.idx args.editor args.console_mode]
  ++ [SystemdBootPlanState.CopyToEsp args.generated_entries esp]
  ++ [SystemdBootPlanState.Syncfs esp]
  ++ [SystemdBootPlanState.End]

/-- Recognizer for the `Install` plan step. -/
def SystemdBootPlanState.isInstall : SystemdBootPlanState → Bool
  | .Install _ _ _ _ => true
  | _ => false

/-- Recognizer for the `Update` plan step. -/
def SystemdBootPlanState.isUpdate : SystemdBootPlanState → Bool
  | .Update _ _ => true
  | _ => false

/-- Recognizer for the `PruneFiles` plan step. -/
def SystemdBootPlanState.isPruneFiles : SystemdBootPlanState → Bool
  | .PruneFiles _ _ => true
  | _ => false

/-- Recognizer for the `WriteLoader` plan step. -/
def SystemdBootPlanState.isWriteLoader : SystemdBootPlanState → Bool
  | .WriteLoader _ _ _ _ _ => true
  | _ => false

/-- Recognizer for the `SignFiles` plan step. -/
def SystemdBootPlanState.isSignFiles : SystemdBootPlanState → Bool
  | .SignFiles _ _ => true
  | _ => false

/-- Recognizer for the `CopyToEsp` plan step. -/
def SystemdBootPlanState.isCopyToEsp : SystemdBootPlanState → Bool
  | .CopyToEsp _ _ => true
  | _ => false

/-- Claim C2: every plan produced by `create_plan` starts with `Start`, ends
with `End`, contains exactly one of `Install` / `Update` (`Install` exactly
when install mode was requested), orders `PruneFiles` and `WriteLoader`
before `CopyToEsp`, and has `Syncfs` as the second-to-last step, directly
before `End`. -/
theorem create_plan_step_invariants (fsExists : String → Bool) (p : PlanArgs) :
    (create_plan fsExists p).head? = some SystemdBootPlanState.Start ∧
    (create_plan fsExists p).getLast? = some SystemdBootPlanState.End ∧
    (create_plan fsExists p).countP
      (fun s => s.isInstall || s.isUpdate) = 1 ∧
    ((∃ s ∈ create_plan fsExists p, s.isInstall = true) ↔ p.args.install = true) ∧
    (create_plan fsExists p).findIdx SystemdBootPlanState.isPruneFiles
      < (create_plan fsExists p).findIdx SystemdBootPlanState.isCopyToEsp ∧
    (create_plan fsExists p).findIdx SystemdBootPlanState.isWriteLoader
      < (create_plan fsExists p).findIdx SystemdBootPlanState.isCopyToEsp ∧
    (create_plan fsExists p).drop ((create_plan fsExists p).length - 2)
      = [SystemdBootPlanState.Syncfs p.esp, SystemdBootPlanState.End] := by
  cases hI : p.args.install <;> cases hS : p.args.signing_info <;>
    simp [create_plan, hI, hS, SystemdBootPlanState.isInstall,
      SystemdBootPlanState.isUpdate, SystemdBootPlanState.isPruneFiles,
      SystemdBootPlanState.isWriteLoader, SystemdBootPlanState.isCopyToEsp,
      List.findIdx_cons, List.getLast?, List.countP_cons]

/-- Concrete planner input used for closed instances, mirroring the
scaffold used by the source's own plan tests (install mode, no signing). -/
def examplePlanArgs : PlanArgs :=
  { args :=
      { toplevel := ("toplevel")
        dry_run := false
        generated_entries := ("generated_entries")
        timeout := some 1
        console_mode := ("max")
        configuration_limit := some 1
        editor := false
        verbosity := 0
        install := true
        esp := [("esp")]
        can_touch_efi_vars := false
        bootctl := some ("bootctl")
        unified_efi := false
        signing_info := none }
    bootctl := ("bootctl")
    esp := ("esp")
    wanted_generations := [⟨2, none, ("2"), [("nixos-generation-2.conf")]⟩]
    default_generation := ⟨2, none, ("2"), [("nixos-generation-2.conf")]⟩
    identified_files := ⟨[], []⟩ }

/-- Claim C7, counterexample: `create_plan` is not a function of the claim's
listed inputs alone.  With install mode requested and all other inputs held
fixed, two filesystem states that differ on whether `esp/loader/loader.conf`
exists yield different step sequences (the `Install` step's `loader` payload
differs), and the existence check itself is I/O performed inside
`create_plan`. -/
theorem create_plan_depends_on_filesystem :
    create_plan (fun _ => true) examplePlanArgs
      ≠ create_plan (fun _ => false) examplePlanArgs := by
  decide

/-- Claim C7, amended: `create_plan` performs no I/O other than the single
existence check of `<esp>/loader/loader.conf` (used only in install mode);
fixing the result of that check along with the other inputs makes the
produced step sequence identical across calls, and in update mode the plan
does not depend on the filesystem at all. -/
theorem create_plan_deterministic_given_loader_probe (p : PlanArgs)
    (fs fs' : String → Bool) :
    (fs (pathJoin p.esp ("loader/loader.conf"))
        = fs' (pathJoin p.esp ("loader/loader.conf")) →
      create_plan fs p = create_plan fs' p) ∧
    (p.args.install = false → create_plan fs p = create_plan fs' p) := by
  constructor
  · intro h
    simp only [create_plan]
    rw [h]
  · intro h
    simp [create_plan, h]

/-- Claim C7 witness: two concrete probe oracles that agree on the loader
path (but differ elsewhere) produce the same plan on a concrete input. -/
theorem create_plan_deterministic_witness :
    create_plan (fun s => s == ("other")) examplePlanArgs
      = create_plan (fun _ => false) examplePlanArgs :=
  (create_plan_deterministic_given_loader_probe examplePlanArgs
    (fun s => s == ("other")) (fun _ => false)).1 (by decide)

/-- Claim C10: whenever Secure Boot signing info is configured, the plan's
unique `SignFiles` step lists the two boot-manager binaries
`<esp>/EFI/systemd/systemd-bootx64.efi` and `<esp>/EFI/BOOT/BOOTX64.EFI` as
its first two entries, before the identified files (even when those are
empty). -/
theorem create_plan_signfiles_first_entries (fsExists : String → Bool)
    (p : PlanArgs) (si : SigningInfo) (h : p.args.signing_info = some si) :
    (create_plan fsExists p).filter (fun s => s.isSignFiles)
      = [SystemdBootPlanState.SignFiles si
          (pathJoin p.esp ("EFI/systemd/systemd-bootx64.efi")
            :: pathJoin p.esp ("EFI/BOOT/BOOTX64.EFI")
            :: p.identified_files.to_sign)] := by
  cases hI : p.args.install <;>
    simp [create_plan, hI, h, SystemdBootPlanState.isSignFiles,
      SystemdBootPlanState.isInstall, List.filter_cons]

/-- Concrete signing info used for closed instances. -/
def exampleSigningInfo : SigningInfo :=
  ⟨("db.key"), ("db.crt"), ("sbsign"), ("sbverify")⟩

/-- Concrete planner input with signing configured and an empty identified
`to_sign` set. -/
def examplePlanArgsSigned : PlanArgs :=
  { examplePlanArgs with
    args := { examplePlanArgs.args with
      install := false
      signing_info := some exampleSigningInfo } }

/-- Claim C10 witness: on a concrete signing-enabled input with no
identified files, the `SignFiles` step still lists exactly the two
boot-manager binaries, in order. -/
theorem create_plan_signfiles_first_entries_witness :
    (create_plan (fun _ => false) examplePlanArgsSigned).filter
        (fun s => s.isSignFiles)
      = [SystemdBootPlanState.SignFiles exampleSigningInfo
          [pathJoin ("esp") ("EFI/systemd/systemd-bootx64.efi"),
           pathJoin ("esp") ("EFI/BOOT/BOOTX64.EFI")]] :=
  create_plan_signfiles_first_entries (fun _ => false) examplePlanArgsSigned
    exampleSigningInfo (by decide)

/-! ### Managed-entry pattern and pruning (`mod.rs`, lines 50-52 and 307-354)

`ENTRY_RE` is the regex
`nixos-(?:(?P<profile>[^-]+)-)?generation-(?P<generation>\d+).conf`
(`mod.rs` lines 50-52), used unanchored via `is_match`.  It is embedded as a
character-level matcher: the unescaped `.` matches any character except a
newline, `[^-]+` is a nonempty run of characters other than `-`, and
`is_match` searches for a match starting at any position.
-/

/-- Matches the tail `\d+.conf` of `ENTRY_RE` (at least one digit, then any
single non-newline character, then the literal `conf`), at the head of the
list: the disjunction at each character mirrors the regex's backtracking
between extending the digit run and using the wildcard. -/
def entryReTailAux : List Char → Bool
  | [] => false
  | c :: rest =>
    (decide (c ≠ '\n') && List.isPrefixOf ("conf").data rest)
      || (c.isDigit && entryReTailAux rest)

/-- Matches `\d+.conf` at the head of the list (first character must start
the digit run). -/
def entryReTail : List Char → Bool
  | [] => false
  | c :: rest => c.isDigit && entryReTailAux rest

/-- Matches `generation-\d+.conf` at the head of the list. -/
def entryReGen (cs : List Char) : Bool :=
  List.isPrefixOf ("generation-").data cs && entryReTail (cs.drop 11)

/-- Matches `[^-]+-generation-\d+.conf` after its first character has been
checked: at each character, either it is the `-` closing the profile group
(then `generation-...` must follow) or it is another profile character. -/
def entryReProfAux : List Char → Bool
  | [] => false
  | c :: rest =>
    (decide (c = '-') && entryReGen rest)
      || (decide (c ≠ '-') && entryReProfAux rest)

/-- Matches `(?:[^-]+-)?generation-\d+.conf` at the head of the list. -/
def entryReAfterNixos (cs : List Char) : Bool :=
  entryReGen cs ||
    (match cs with
     | c :: rest => decide (c ≠ '-') && entryReProfAux rest
     | [] => false)

/-- Searches for a match of `ENTRY_RE` starting at any position. -/
def entryReSearch : List Char → Bool
  | [] => false
  | c :: rest =>
    (List.isPrefixOf ("nixos-").data (c :: rest)
      && entryReAfterNixos ((c :: rest).drop 6))
      || entryReSearch rest

/-- `ENTRY_RE.is_match` from `src/installer/src/systemd_boot/mod.rs`
(lines 50-52). -/
def entryReIsMatch (s : String) : Bool := entryReSearch s.data

example : entryReIsMatch ("nixos-generation-1.conf") = true := by decide
example : entryReIsMatch ("nixos-test-generation-12.conf") = true := by decide
example : entryReIsMatch ("nixos-generation-12conf") = true := by decide
example : entryReIsMatch ("memtest86.conf") = false := by decide
example : entryReIsMatch ("nixos-generation-.conf") = false := by decide
example : entryReIsMatch ("my-nixos-generation-3.conf") = true := by decide

/-- Mirrors `get_required_file_paths` in
`src/installer/src/systemd_boot/mod.rs` (lines 295-305): the union (with
multiplicity, in catalog order) of every generation's required filenames.
The source revision of `mod.rs` pushes each generation's entry-file, kernel
and initrd filenames individually; on the `util.rs` `Generation` these are
exactly the elements of `required_filenames`. -/
def get_required_file_paths (generations : List Generation) : List String :=
  (generations.map (fun g => g.required_filenames)).flatten

/-- The directory state that `remove_old_files` observes and mutates: the
existence of the ESP root, of `efi/nixos` and of `loader/entries`, and the
filenames listed in the latter two directories. -/
structure EspDir where
  path_e : Bool
  efi_nixos_e : Bool
  loader_entries_e : Bool
  loader_entries : List String
  efi_nixos : List String
deriving DecidableEq, Repr

/-- Mirrors `remove_old_files` in `src/installer/src/systemd_boot/mod.rs`
(lines 307-354): if the root, `efi/nixos` or `loader/entries` is missing it
warns and removes nothing; otherwise in `loader/entries` it skips (keeps)
every entry not matching `ENTRY_RE` and deletes matching entries whose name
is not required, while in `efi/nixos` it deletes every entry whose name is
not required, with no pattern check.  Directory listing and deletion are
modelled as a pure transformation of `EspDir`. -/
def remove_old_files (generations : List Generation) (d : EspDir) : EspDir :=
  if !d.path_e || !d.efi_nixos_e || !d.loader_entries_e then d
  else
    let required_file_paths := get_required_file_paths generations
    { d with
      loader_entries := d.loader_entries.filter (fun name =>
        if !entryReIsMatch name then true
        else required_file_paths.any (fun e => e == name))
      efi_nixos := d.efi_nixos.filter (fun name =>
        required_file_paths.any (fun e => e == name)) }

/-- Claim C3, counterexample: in the binary-artifacts directory
(`efi/nixos`), a file whose name matches neither the managed-entry pattern
nor any known kernel/initrd/unified filename (the wanted set is empty, so
the required union is empty) is nevertheless deleted by `remove_old_files`. -/
theorem remove_old_files_deletes_unmanaged_artifact :
    entryReIsMatch ("README.txt") = false ∧
    get_required_file_paths [] = [] ∧
    (remove_old_files []
      ⟨true, true, true, [("nixos-custom.conf")], [("README.txt")]⟩).efi_nixos
      = [] := by
  decide

/-- Claim C3, amended: in the loader-entries directory, every entry whose
filename does not match `ENTRY_RE` is left untouched by `remove_old_files`
regardless of the wanted-generation set; in the binary-artifacts directory
(`efi/nixos`), by contrast, every entry not in the required-filename union
is deleted regardless of its name. -/
theorem remove_old_files_preserves_unmanaged_entries
    (generations : List Generation) (d : EspDir) (name : String)
    (hm : entryReIsMatch name = false) (hin : name ∈ d.loader_entries) :
    name ∈ (remove_old_files generations d).loader_entries ∧
    (d.path_e = true → d.efi_nixos_e = true → d.loader_entries_e = true →
      ∀ name2, name2 ∈ (remove_old_files generations d).efi_nixos →
        name2 ∈ get_required_file_paths generations) := by
  by_cases h : (!d.path_e || !d.efi_nixos_e || !d.loader_entries_e) = true
  · rw [remove_old_files, if_pos h]
    refine ⟨hin, ?_⟩
    intro h1 h2 h3
    rw [h1, h2, h3] at h
    simp at h
  · rw [remove_old_files, if_neg h]
    constructor
    · exact List.mem_filter.mpr ⟨hin, by simp [hm]⟩
    · intro _ _ _ name2 hmem
      have h2 := (List.mem_filter.mp hmem).2
      simp only [List.any_eq_true, beq_iff_eq] at h2
      obtain ⟨x, hx, hxe⟩ := h2
      rw [← hxe]
      exact hx

/-- Claim C3 witness: a concrete unmanaged loader entry survives pruning
with an empty wanted set. -/
theorem remove_old_files_preserves_unmanaged_entries_witness :
    ("memtest86.conf") ∈ (remove_old_files []
      ⟨true, true, true, [("memtest86.conf")], []⟩).loader_entries :=
  (remove_old_files_preserves_unmanaged_entries []
    ⟨true, true, true, [("memtest86.conf")], []⟩ ("memtest86.conf")
    (by decide) (by decide)).1

/-! ### Version probes (`src/installer/src/systemd_boot/version/`)

`SystemdBootVersion::from_output` scans `bootctl status` text with the
multi-line, case-insensitive regex
`^\W+File:.*/EFI/(BOOT|systemd)/.*\.efi \(systemd-boot (?P<version>\d+)\)$`
and returns `Ok(None)` when nothing matches;
`SystemdVersion::from_output` scans `bootctl --version` text with
`systemd (?P<version>\d+) \(\d+\)` and returns a hard error when nothing
matches.  Both are embedded as character-level matchers over the text (the
byte input's UTF-8 decoding step is outside the model).  `\W` is a non-word
character (word characters are ASCII alphanumerics and `_` in this model),
`.` matches any character except a newline, and the `$`-anchored suffix of
the first pattern makes its per-line parse deterministic, so the matcher
parses each line from its end.  A `^\W+` run may also absorb a whole
preceding line when that line consists only of non-word characters, which
the scanner tracks with a `prevOk` flag.
-/

deriving instance DecidableEq for Except

/-- Word characters for the regex class `\w` (ASCII view of the source's
unicode-aware class). -/
def isWordChar (c : Char) : Bool := c.isAlphanum || c == '_'

/-- Splits character text at newlines (the positions where the multi-line
anchors `^` and `$` match). -/
def splitLinesAux : List Char → List Char → List (List Char)
  | [], acc => [acc.reverse]
  | c :: rest, acc =>
    if c = '\n' then acc.reverse :: splitLinesAux rest []
    else splitLinesAux rest (c :: acc)

/-- All lines of a character text. -/
def splitLines (cs : List Char) : List (List Char) := splitLinesAux cs []

/-- Rust `str::parse::<usize>` on a nonempty digit string: the numeric value
unless it overflows a 64-bit `usize`. -/
def parseUsize (ds : List Char) : Option Nat :=
  let n := ds.foldl (fun a c => a * 10 + (c.toNat - ('0').toNat)) 0
  if n < 2 ^ 64 then some n else none

/-- Is `pat` an infix (contiguous sublist) of the text. -/
def listHasInfix (pat : List Char) : List Char → Bool
  | [] => List.isPrefixOf pat []
  | c :: rest => List.isPrefixOf pat (c :: rest) || listHasInfix pat rest

/-- One line of the `bootctl status` pattern: returns the captured version
digits when the regex matches this line.  `prevOk` says whether the
preceding line consists only of non-word characters (so that a `^\W+` run
starting on it can reach this line); the within-line non-word run `w` is
the maximal one, since the following literal starts with the word character
`f`.  The parse works backwards from the `$` anchor: a final `)`, then the
maximal digit run, then the literal `.efi (systemd-boot ` reversed, and the
remaining prefix must contain `/EFI/BOOT/` or `/EFI/systemd/`
(case-insensitively, via lowercasing). -/
def sdbLineVersion (prevOk : Bool) (line : List Char) : Option (List Char) :=
  let l := line.map Char.toLower
  let w := l.takeWhile (fun c => !isWordChar c)
  if w.isEmpty && !prevOk then none
  else
    let r := l.drop w.length
    if List.isPrefixOf ("file:").data r then
      match (r.drop 5).reverse with
      | c :: rest =>
        if c = ')' then
          let d := rest.takeWhile Char.isDigit
          if d.isEmpty then none
          else
            let sufRev := (".efi (systemd-boot ").data.reverse
            let rest2 := rest.drop d.length
            if List.isPrefixOf sufRev rest2 then
              let pre := (rest2.drop sufRev.length).reverse
              if listHasInfix ("/efi/boot/").data pre
                  || listHasInfix ("/efi/systemd/").data pre then
                some d.reverse
              else none
            else none
        else none
      | [] => none
    else none

/-- Scans the lines in order for the first match (regex `captures` returns
the leftmost match), tracking whether the previous line was all non-word. -/
def sdbScanLines : List (List Char) → Bool → Option (List Char)
  | [], _ => none
  | l :: rest, prevOk =>
    match sdbLineVersion prevOk l with
    | some d => some d
    | none => sdbScanLines rest (l.all (fun c => !isWordChar c))

/-- Mirrors `SystemdBootVersion::from_output` in
`src/installer/src/systemd_boot/version/systemd_boot.rs` (lines 22-45): the
first match's captured digits parsed as `usize` (`.parse().ok()`, so an
overflowing capture yields `None`), and never an error on text input. -/
def SystemdBootVersion.from_output (s : String) : Except String (Option Nat) :=
  Except.ok ((sdbScanLines (splitLines s.data) false).bind parseUsize)

example : SystemdBootVersion.from_output
    ("         File: └─/EFI/systemd/systemd-bootx64.efi (systemd-boot 247)")
    = Except.ok (some 247) := by decide
example : SystemdBootVersion.from_output ("") = Except.ok none := by decide

/-- The pattern `systemd (?P<version>\d+) \(\d+\)` matched at the head of
the text: the literal `systemd `, a maximal nonempty digit run, the literal
` (`, a maximal nonempty digit run, then `)` (case-sensitively). -/
def sdVersionAt (cs : List Char) : Option (List Char) :=
  if List.isPrefixOf ("systemd ").data cs then
    let r := cs.drop 8
    let d := r.takeWhile Char.isDigit
    if d.isEmpty then none
    else
      let r2 := r.drop d.length
      if List.isPrefixOf (" (").data r2 then
        let r3 := r2.drop 2
        let e := r3.takeWhile Char.isDigit
        if e.isEmpty then none
        else if List.isPrefixOf (")").data (r3.drop e.length) then some d
        else none
      else none
  else none

/-- Leftmost match of the tool-version pattern anywhere in the text. -/
def sdVersionSearch : List Char → Option (List Char)
  | [] => none
  | c :: rest =>
    match sdVersionAt (c :: rest) with
    | some d => some d
    | none => sdVersionSearch rest

/-- Mirrors `SystemdVersion::from_output` in
`src/installer/src/systemd_boot/version/systemd.rs` (lines 22-37): no match
is a hard error (`ok_or("failed to get capture groups")?`), and the `?` on
`.parse::<usize>()` also propagates an overflow as an error. -/
def SystemdVersion.from_output (s : String) : Except String Nat :=
  match sdVersionSearch s.data with
  | none => Except.error ("failed to get capture groups")
  | some d =>
    match parseUsize d with
    | some n => Except.ok n
    | none => Except.error ("number too large to fit in target type")

example : SystemdVersion.from_output ("systemd 247 (247)") = Except.ok 247 := by
  decide
example : SystemdVersion.from_output ("systemd (247)")
    = Except.error ("failed to get capture groups") := by decide
example : SystemdVersion.from_output ("systemc 247 (247)")
    = Except.error ("failed to get capture groups") := by decide

theorem sdbScanLines_eq_none (ls : List (List Char)) (pOk : Bool)
    (h : ∀ pr l, l ∈ ls → sdbLineVersion pr l = none) :
    sdbScanLines ls pOk = none := by
  induction ls generalizing pOk with
  | nil => rfl
  | cons l rest ih =>
    rw [sdbScanLines, h _ l (by simp)]
    exact ih _ (fun pr l' hl' => h pr l' (by simp [hl']))

/-- Claim C6: the installed-boot-manager probe returns a definite absence
(`Ok(None)`), not an error, for every status text in which no line matches
the documented pattern; the tool-version probe returns a hard error for
every text in which the pattern matches nowhere. -/
theorem version_probes_absence_vs_error :
    (∀ s : String,
      (∀ prevOk line, line ∈ splitLines s.data →
        sdbLineVersion prevOk line = none) →
      SystemdBootVersion.from_output s = Except.ok none) ∧
    (∀ s : String, sdVersionSearch s.data = none →
      ∃ e, SystemdVersion.from_output s = Except.error e) := by
  constructor
  · intro s h
    rw [SystemdBootVersion.from_output,
      sdbScanLines_eq_none _ _ (fun pr l hl => h pr l hl)]
    rfl
  · intro s h
    exact ⟨("failed to get capture groups"), by rw [SystemdVersion.from_output, h]⟩

/-- Claim C6 witness: concrete texts in which the patterns match nowhere. -/
theorem version_probes_absence_vs_error_witness :
    SystemdBootVersion.from_output ("no boot loader here")
      = Except.ok none ∧
    ∃ e, SystemdVersion.from_output ("no version here")
      = Except.error e :=
  ⟨version_probes_absence_vs_error.1 ("no boot loader here") (by decide),
   version_probes_absence_vs_error.2 ("no version here") (by decide)⟩

/-! ### The executor's Update step (`plan.rs::run_update`, lines 272-290)

`run_update` is what `consume_plan` runs for the `Update` plan step.  In the
source it (1) probes the tool version with `SystemdVersion::detect_version`
(which shells out to `bootctl --version` and hard-errors if the output does
not parse), then (2) unconditionally invokes `bootctl update --path <esp>`
and hard-errors on a non-zero exit.  It never probes the installed
boot-manager version (`SystemdBootVersion::detect_version` and
`bootloader_is_old` are not consulted on this path).  The embedding makes
the external command invocations observable as a trace.
-/

/-- An external command invocation: program and arguments. -/
inductive ExtCommand where
  | run (program : String) (cmdArgs : List String)
deriving DecidableEq, Repr

/-- The world `run_update` executes in: the stdout of `bootctl --version`,
the stdout that `bootctl status` would produce (which determines the
installed boot-manager version, and which `run_update` never reads), and
whether `bootctl update` exits successfully. -/
structure UpdateWorld where
  version_output : String
  status_output : String
  update_exit_ok : Bool

/-- Mirrors `run_update` in `src/installer/src/systemd_boot/plan.rs`
(lines 272-290), returning the trace of external commands it invokes and
the error, if any (error message text abbreviated). -/
def run_update (bootctl esp : String) (w : UpdateWorld) :
    List ExtCommand × Option String :=
  match SystemdVersion.from_output w.version_output with
  | Except.error e => ([ExtCommand.run bootctl [("--version")]], some e)
  | Except.ok _ =>
    ([ExtCommand.run bootctl [("--version")],
      ExtCommand.run bootctl [("update"), ("--path"), esp]],
     if w.update_exit_ok then none
     else some (("failed to run `") ++ bootctl ++ ("` update")))

/-- Claim C1, code evaluation at the failing input: in a world whose
`bootctl status` output contains no installed boot-manager version (the
probe yields `Ok(None)`, and `bootloader_is_old` reports `false` for an
absent version, as the claim requires), `run_update` — the executor's
Update step — still invokes `bootctl update --path <esp>` and completes
without error, contradicting the claim that the update command runs only
when a detected installed version is strictly older than the tool
version. -/
theorem run_update_invokes_update_without_installed_version :
    SystemdBootVersion.from_output ("") = Except.ok none ∧
    bootloader_is_old none 247 = false ∧
    (run_update ("bootctl") ("esp")
        ⟨("systemd 247 (247)"), (""), true⟩).1.contains
      (ExtCommand.run ("bootctl") [("update"), ("--path"), ("esp")]) = true ∧
    (run_update ("bootctl") ("esp")
        ⟨("systemd 247 (247)"), (""), true⟩).2 = none := by
  decide

/-! ### Content checksums and file replacement (`plan.rs::replace_file`,
lines 292-375)

The staleness check uses `Crc::<u32>::new(&CRC_32_ISCSI)` (CRC-32C,
Castagnoli): reflected polynomial `0x82F63B78`, initial value `0xFFFFFFFF`,
final xor `0xFFFFFFFF`, implemented here bit by bit over byte lists.
-/

/-- One reflected CRC-32C bit step. -/
def crc32cStep (x : Nat) : Nat :=
  if x % 2 = 1 then (x / 2) ^^^ 0x82F63B78 else x / 2

/-- Folds one byte into a CRC-32C accumulator (eight bit steps). -/
def crc32cByte (crc b : Nat) : Nat :=
  let x := crc ^^^ (b % 256)
  crc32cStep (crc32cStep (crc32cStep (crc32cStep
    (crc32cStep (crc32cStep (crc32cStep (crc32cStep x)))))))

/-- `CASTAGNOLI.checksum` from `plan.rs` (line 17) over a byte list. -/
def crc32c (bytes : List Nat) : Nat :=
  (bytes.foldl crc32cByte 0xFFFFFFFF) ^^^ 0xFFFFFFFF

set_option maxRecDepth 8192 in
example : crc32c (("123456789").data.map Char.toNat) = 0xE3069283 := by decide

/-- The file-name component of a path string (the part after the last
slash). -/
def pathFileName (p : String) : List Char :=
  (p.data.reverse.takeWhile (fun c => c ≠ '/')).reverse

/-- Rust `Path::extension`: the portion of the file name after its last
`.`, unless there is no `.` or the only candidate `.` is the leading
character of the file name. -/
def pathExtension (p : String) : Option String :=
  let name := pathFileName p
  let afterDot := name.reverse.takeWhile (fun c => c ≠ '.')
  if afterDot.length = name.length then none
  else if afterDot.length + 1 = name.length then none
  else some (String.mk afterDot.reverse)

example : pathExtension ("a/b.efi") = some ("efi") := by decide
example : pathExtension ("a/b.tar.gz") = some ("gz") := by decide
example : pathExtension ("a/.bashrc") = none := by decide
example : pathExtension ("a/noext") = none := by decide

/-- The world `replace_file` executes in: per-path signature-verification
results (`sbverify` exit status), per-path file contents (bytes), and the
effect of `sbattach --remove` on contents (`none` models a non-zero exit;
the source applies it to temporary copies of the two files, which the model
folds into a function on contents). -/
structure ReplaceWorld where
  verify_ok : String → Bool
  contents : String → List Nat
  strip_sig : List Nat → Option (List Nat)

/-- The observable outcome of `replace_file`: whether the staged (generated)
copy was deleted, and the error, if any. -/
structure ReplaceOutcome where
  removed_staged : Bool
  error : Option String
deriving DecidableEq, Repr

/-- The pair of checksums `(hash_a, hash_b)` computed by `replace_file`
(`plan.rs` lines 296-357), or the hard error that precedes them: when
signing is configured and the staged file has the `efi` extension, the
staged side must verify (hard error otherwise), a verification failure of
the ESP side is only warned about, both contents are signature-stripped
(hard error when `sbattach` fails) and checksummed; otherwise the raw
contents are checksummed directly. -/
def computed_hashes (file : FileToReplace) (signing_info : Option SigningInfo)
    (w : ReplaceWorld) : Except String (Nat × Nat) :=
  if signing_info.isSome && (pathExtension file.generated_loc == some ("efi")) then
    if !(w.verify_ok file.generated_loc) then
      Except.error (file.generated_loc ++ (" could not be verified"))
    else
      match w.strip_sig (w.contents file.generated_loc) with
      | none => Except.error ("failed to remove signature from generated copy")
      | some ga =>
        match w.strip_sig (w.contents file.esp_loc) with
        | none => Except.error ("failed to remove signature from esp copy")
        | some ea => Except.ok (crc32c ga, crc32c ea)
  else
    Except.ok (crc32c (w.contents file.generated_loc),
      crc32c (w.contents file.esp_loc))

/-- Mirrors `replace_file` in `src/installer/src/systemd_boot/plan.rs`
(lines 292-375): compute the two checksums (with the verification and
signature-stripping steps of `computed_hashes`); if they are equal, delete
the staged copy, otherwise only warn that the file will be replaced. -/
def replace_file (file : FileToReplace) (signing_info : Option SigningInfo)
    (w : ReplaceWorld) : ReplaceOutcome :=
  match computed_hashes file signing_info w with
  | Except.error e => ⟨false, some e⟩
  | Except.ok (a, b) => if a = b then ⟨true, none⟩ else ⟨false, none⟩

/-- Claim C4: `replace_file` deletes the staged copy iff the two computed
checksums are equal (and otherwise leaves it in place); when signing is
active and the file has the `efi` extension, a verification failure of the
staged side is a hard error with no deletion, while a verification failure
of the ESP side alone lets the decision proceed (error-free) on the
stripped checksums. -/
theorem replace_file_spec (file : FileToReplace) (si : SigningInfo)
    (w : ReplaceWorld) :
    (∀ si2 : Option SigningInfo, (replace_file file si2 w).error = none →
      ∃ a b, computed_hashes file si2 w = Except.ok (a, b) ∧
        ((replace_file file si2 w).removed_staged = true ↔ a = b)) ∧
    (pathExtension file.generated_loc = some ("efi") →
      w.verify_ok file.generated_loc = false →
      (replace_file file (some si) w).error.isSome = true ∧
      (replace_file file (some si) w).removed_staged = false) ∧
    (∀ ga ea, pathExtension file.generated_loc = some ("efi") →
      w.verify_ok file.generated_loc = true →
      w.verify_ok file.esp_loc = false →
      w.strip_sig (w.contents file.generated_loc) = some ga →
      w.strip_sig (w.contents file.esp_loc) = some ea →
      (replace_file file (some si) w).error = none ∧
        ((replace_file file (some si) w).removed_staged = true
          ↔ crc32c ga = crc32c ea)) := by
  refine ⟨?_, ?_, ?_⟩
  · intro si2 h
    cases hc : computed_hashes file si2 w with
    | error e => rw [replace_file, hc] at h ⊢; simp at h
    | ok ab =>
      obtain ⟨a, b⟩ := ab
      refine ⟨a, b, rfl, ?_⟩
      by_cases hab : a = b <;> simp [replace_file, hc, hab]
  · intro hext hver
    simp [replace_file, computed_hashes, hext, hver]
  · intro ga ea hext hver _hverE hsg hse
    have hc : computed_hashes file (some si) w
        = Except.ok (crc32c ga, crc32c ea) := by
      simp [computed_hashes, hext, hver, hsg, hse]
    by_cases h : crc32c ga = crc32c ea <;> simp [replace_file, hc, h]

/-- Concrete replacement world used for the C4 witness: the staged side
verifies, the ESP side does not, signature stripping succeeds and the two
contents differ. -/
def exampleReplaceWorld : ReplaceWorld :=
  ⟨fun p => p == ("gen/x.efi"),
   fun p => if p == ("gen/x.efi") then [1] else [2],
   fun bs => some bs⟩

/-- Claim C4 witness: on a concrete replacement candidate with signing
active, a failed staged-side verification is a hard error without deletion,
and with the staged side verifying but the ESP side failing, the decision
proceeds and deletes iff the stripped checksums agree. -/
theorem replace_file_spec_witness :
    ((replace_file ⟨("gen/x.efi"), ("esp/x.efi")⟩ (some exampleSigningInfo)
        exampleReplaceWorld).error = none ∧
      ((replace_file ⟨("gen/x.efi"), ("esp/x.efi")⟩ (some exampleSigningInfo)
        exampleReplaceWorld).removed_staged = true
          ↔ crc32c [1] = crc32c [2])) ∧
    ((replace_file ⟨("esp/y.efi"), ("esp/x.efi")⟩ (some exampleSigningInfo)
        exampleReplaceWorld).error.isSome = true ∧
      (replace_file ⟨("esp/y.efi"), ("esp/x.efi")⟩ (some exampleSigningInfo)
        exampleReplaceWorld).removed_staged = false) :=
  ⟨(replace_file_spec ⟨("gen/x.efi"), ("esp/x.efi")⟩ exampleSigningInfo
      exampleReplaceWorld).2.2 [1] [2] (by decide) (by decide) (by decide)
      (by decide) (by decide),
   (replace_file_spec ⟨("esp/y.efi"), ("esp/x.efi")⟩ exampleSigningInfo
      exampleReplaceWorld).2.1 (by decide) (by decide)⟩

/-! ### Atomic single-file copy (`util.rs::atomic_tmp_copy_file`,
lines 146-158)

The source computes `dest.with_extension("tmp")` (which *replaces* the
destination's extension rather than appending `.tmp` to the whole name),
removes a stale file at that temporary path if present, creates the
destination's parent directories, copies the source to the temporary path
and finally renames the temporary onto the destination.  The filesystem
steps are modelled as an explicit trace; an operation that fails aborts the
run, and a failed remove or rename performs no visible mutation (POSIX
`rename` either fully replaces the target or leaves it unchanged), while a
failed copy may have partially written the *temporary* path, so the copy
event is kept in the trace even on failure.
-/

/-- Rust `Path::with_extension` with a nonempty new extension: the file
stem (name minus any existing extension) with `.` and the new extension
appended. -/
def with_extension (p ext : String) : String :=
  let name := pathFileName p
  let dir := p.data.take (p.data.length - name.length)
  let stem := match pathExtension p with
    | some e => name.take (name.length - e.length - 1)
    | none => name
  String.mk (dir ++ stem ++ ('.' :: ext.data))

example : with_extension ("a/b.conf") ("tmp") = ("a/b.tmp") := by decide
example : with_extension ("a/loader") ("tmp") = ("a/loader.tmp") := by decide

/-- A filesystem micro-operation performed by the atomic copy. -/
inductive FsOp where
  | remove_file (p : String)
  | create_dirs_to (p : String)
  | copyFile (src dst : String)
  | rename (src dst : String)
deriving DecidableEq, Repr

/-- Does the operation modify the file at path `p`?  `create_dirs_to`
creates only ancestor directories of its argument (and returns early if the
file exists), so it never modifies the file itself; `rename` modifies both
its source and its target. -/
def FsOp.touches (p : String) : FsOp → Bool
  | .remove_file q => q == p
  | .create_dirs_to _ => false
  | .copyFile _ dst => dst == p
  | .rename src dst => src == p || dst == p

/-- The world `atomic_tmp_copy_file` executes in: whether the temporary
path already exists, and whether each fallible filesystem call succeeds. -/
structure CopyWorld where
  tmp_e : Bool
  remove_ok : Bool
  create_dirs_ok : Bool
  copy_ok : Bool
  rename_ok : Bool
deriving DecidableEq, Repr

/-- Mirrors `atomic_tmp_copy_file` in `src/installer/src/util.rs`
(lines 146-158), returning the trace of filesystem operations that took
effect and the error, if any. -/
def atomic_tmp_copy_file (source dest : String) (w : CopyWorld) :
    List FsOp × Option String :=
  let tmp_dest := with_extension dest ("tmp")
  if w.tmp_e && !w.remove_ok then ([], some ("failed to remove tmp file"))
  else
    let t0 : List FsOp := if w.tmp_e then [FsOp.remove_file tmp_dest] else []
    if !w.create_dirs_ok then (t0, some ("failed to create directories"))
    else if !w.copy_ok then
      (t0 ++ [FsOp.create_dirs_to dest, FsOp.copyFile source tmp_dest],
        some ("failed to copy"))
    else if !w.rename_ok then
      (t0 ++ [FsOp.create_dirs_to dest, FsOp.copyFile source tmp_dest],
        some ("failed to rename"))
    else
      (t0 ++ [FsOp.create_dirs_to dest, FsOp.copyFile source tmp_dest,
        FsOp.rename tmp_dest dest], none)

/-- Claim C5, counterexample: for a destination with an extension, the
temporary file is *not* named `<dest>.tmp`: `with_extension` replaces the
`.conf` extension, the full copy is written to
`...nixos-generation-1.tmp`, and no operation of the run ever touches the
path `<dest>.tmp`. -/
theorem atomic_tmp_copy_file_tmp_name_counterexample :
    with_extension ("esp/loader/entries/nixos-generation-1.conf") ("tmp")
      = ("esp/loader/entries/nixos-generation-1.tmp") ∧
    ("esp/loader/entries/nixos-generation-1.tmp")
      ≠ ("esp/loader/entries/nixos-generation-1.conf") ++ (".tmp") ∧
    (atomic_tmp_copy_file ("gen/nixos-generation-1.conf")
        ("esp/loader/entries/nixos-generation-1.conf")
        ⟨false, true, true, true, true⟩).1.contains
      (FsOp.copyFile ("gen/nixos-generation-1.conf")
        ("esp/loader/entries/nixos-generation-1.tmp")) = true ∧
    (∀ op ∈ (atomic_tmp_copy_file ("gen/nixos-generation-1.conf")
        ("esp/loader/entries/nixos-generation-1.conf")
        ⟨false, true, true, true, true⟩).1,
      FsOp.touches
        (("esp/loader/entries/nixos-generation-1.conf") ++ (".tmp")) op
        = false) := by
  decide

/-- Claim C5, amended: the content is first written in full to the
temporary path `dest.with_extension("tmp")` (for a destination whose file
name has no extension this is `<dest>.tmp`), and — provided that temporary
path differs from the destination — the destination path is modified by
exactly one operation, the final rename of the fully-written temporary
(and by none at all when any step fails), so the destination always holds
either its prior content or a complete copy of the source. -/
theorem atomic_tmp_copy_file_dest_touched_only_by_rename
    (source dest : String) (w : CopyWorld)
    (hne : with_extension dest ("tmp") ≠ dest) :
    ((atomic_tmp_copy_file source dest w).1.filter (FsOp.touches dest)
      = if (atomic_tmp_copy_file source dest w).2 = none
        then [FsOp.rename (with_extension dest ("tmp")) dest] else []) ∧
    ((atomic_tmp_copy_file source dest w).2 = none →
      ∃ i j, i < j ∧
        (atomic_tmp_copy_file source dest w).1.get? i
          = some (FsOp.copyFile source (with_extension dest ("tmp"))) ∧
        (atomic_tmp_copy_file source dest w).1.get? j
          = some (FsOp.rename (with_extension dest ("tmp")) dest)) := by
  have hb : (with_extension dest ("tmp") == dest) = false :=
    beq_eq_false_iff_ne.mpr hne
  rcases w with ⟨te, ro, cdo, co, rn⟩
  constructor
  · cases te <;> cases ro <;> cases cdo <;> cases co <;> cases rn <;>
      simp [atomic_tmp_copy_file, FsOp.touches, hb]
  · intro herr
    cases te <;> cases ro <;> cases cdo <;> cases co <;> cases rn <;>
      simp [atomic_tmp_copy_file] at herr ⊢ <;>
      first
        | exact ⟨1, 2, by omega, rfl, rfl⟩
        | exact ⟨2, 3, by omega, rfl, rfl⟩

/-- Claim C5 witness: on a concrete successful run, the destination is
touched exactly by the single rename of the temporary, and the full copy to
the temporary precedes it. -/
theorem atomic_tmp_copy_file_dest_touched_only_by_rename_witness :
    ((atomic_tmp_copy_file ("gen/a.conf") ("esp/a.conf")
        ⟨false, true, true, true, true⟩).1.filter (FsOp.touches ("esp/a.conf"))
      = if (atomic_tmp_copy_file ("gen/a.conf") ("esp/a.conf")
            ⟨false, true, true, true, true⟩).2 = none
        then [FsOp.rename (with_extension ("esp/a.conf") ("tmp")) ("esp/a.conf")]
        else []) ∧
    ((atomic_tmp_copy_file ("gen/a.conf") ("esp/a.conf")
        ⟨false, true, true, true, true⟩).2 = none →
      ∃ i j, i < j ∧
        (atomic_tmp_copy_file ("gen/a.conf") ("esp/a.conf")
          ⟨false, true, true, true, true⟩).1.get? i
          = some (FsOp.copyFile ("gen/a.conf") (with_extension ("esp/a.conf") ("tmp"))) ∧
        (atomic_tmp_copy_file ("gen/a.conf") ("esp/a.conf")
          ⟨false, true, true, true, true⟩).1.get? j
          = some (FsOp.rename (with_extension ("esp/a.conf") ("tmp")) ("esp/a.conf"))) :=
  atomic_tmp_copy_file_dest_touched_only_by_rename ("gen/a.conf") ("esp/a.conf")
    ⟨false, true, true, true, true⟩ (by decide)
